import Mathlib

/-!
Verification of the Session/Request Layer of the proxmox-mcp-server
repository (src/index.ts), shallowly embedded in Lean 4.

The embedding follows the TypeScript source:
  * `Json` models a parsed JSON value (the result of JSON parsing by the
    HTTP client).  JavaScript `undefined` is modelled by `Option Json`
    being `none`; JSON `null` is `Json.null`.  Objects are association
    lists with distinct keys (JSON parsing deduplicates keys).
  * `jsGet v f` models the JavaScript property access `v?.f` — `none`
    when the property is absent or the value is not an object.
  * `truthy` models JavaScript truthiness of a defined value.
  * `entries` models `Object.entries` on a defined value.
  * `jsToString` models JavaScript template-literal stringification.
  * `handleResponse` is the response-resolution code of `makeRequest`
    (src/index.ts lines 278-292).
-/

inductive Json where
  | null : Json
  | bool : Bool → Json
  | num : Int → Json
  | str : String → Json
  | arr : List Json → Json
  | obj : List (String × Json) → Json
deriving Repr

/-- Property lookup on an object association list (first match; JSON
parsing produces distinct keys). -/
def lookupField : List (String × Json) → String → Option Json
  | [], _ => none
  | (k, v) :: fs, f => if k = f then some v else lookupField fs f

/-- JavaScript optional property access `v?.f`: `undefined` (`none`)
when the value is not an object or lacks the property.  (Primitive
string/number values have no property named `data`, `errors`, `ticket`
or `CSRFPreventionToken`, the only names this layer reads.) -/
def jsGet (v : Json) (f : String) : Option Json :=
  match v with
  | .obj fs => lookupField fs f
  | _ => none

/-- JavaScript truthiness of a defined JSON value (`Boolean(v)`):
`null`, `false`, `0` and `""` are falsy; every array and object —
including empty ones — is truthy. -/
def truthy : Json → Bool
  | .null => false
  | .bool b => b
  | .num n => n != 0
  | .str s => s != ""
  | .arr _ => true
  | .obj _ => true

/-- Indexed enumeration used by `Object.entries` on arrays and strings:
index properties are enumerated with decimal-string keys. -/
def enumFrom : Nat → List Json → List (String × Json)
  | _, [] => []
  | i, x :: xs => (toString i, x) :: enumFrom (i + 1) xs

/-- JavaScript `Object.entries`: own enumerable properties in insertion
order for an object, index/value pairs for an array, index/character
pairs for a string, and the empty list for other primitives.
(`Object.entries(null)` would throw, but the source only reaches
`Object.entries` on a truthy value, and `null` is falsy.) -/
def entries : Json → List (String × Json)
  | .obj fs => fs
  | .arr xs => enumFrom 0 xs
  | .str s => enumFrom 0 (s.toList.map fun c => Json.str (String.mk [c]))
  | _ => []

mutual

/-- JavaScript template-literal stringification of a defined value
(the semantics of the interpolation in the source template strings):
`String(v)`.  An array stringifies as its elements joined by `","`
(with `null` rendered empty), an object as `"[object Object]"`. -/
def jsToString : Json → String
  | .null => "null"
  | .bool b => if b then "true" else "false"
  | .num n => toString n
  | .str s => s
  | .arr xs => String.intercalate "," (jsToStringElems xs)
  | .obj _ => "[object Object]"

/-- Element stringification for `Array.prototype.join`: `null` (and
`undefined`, which `Json` cannot hold) render as the empty string. -/
def jsToStringElems : List Json → List String
  | [] => []
  | Json.null :: xs => "" :: jsToStringElems xs
  | x :: xs => jsToString x :: jsToStringElems xs

end

/-- An HTTP response as seen by the source after the transport call:
the numeric status code and the parsed JSON body (axios exposes the
body as `response.data`; we call it `body`). -/
structure HttpResponse where
  status : Nat
  body : Json
deriving Repr

/-- Consolidated error message of `makeRequest` (src/index.ts lines
284-287): `Object.entries(errors).map(([k, v]) => k + ": " + v).join("; ")`
when `errors` is truthy, otherwise the status fallback. -/
def renderErrors (e : Json) : String :=
  String.intercalate "; " ((entries e).map fun kv => kv.1 ++ ": " ++ jsToString kv.2)

/-- Truthiness of `response.data?.errors` (an absent field is falsy). -/
def errorsTruthy (body : Json) : Bool :=
  match jsGet body "errors" with
  | some e => truthy e
  | none => false

/-- The message chosen by the error branch of `makeRequest`: the
consolidated `errors` rendering when `errors` is truthy, otherwise
`"Request failed with status <code>"`. -/
def failMsg (resp : HttpResponse) : String :=
  match jsGet resp.body "errors" with
  | some e =>
      if truthy e then renderErrors e
      else "Request failed with status " ++ toString resp.status
  | none => "Request failed with status " ++ toString resp.status

/-- Response resolution of `makeRequest` (src/index.ts lines 278-292):
if the parsed body exposes a `data` property (`!== undefined`, so JSON
`null` counts as present) its value is returned; otherwise, if the
status is at least 400 or the body carries a truthy `errors` property,
the consolidated error is thrown; otherwise `undefined` is returned. -/
def handleResponse (resp : HttpResponse) : Except String (Option Json) :=
  match jsGet resp.body "data" with
  | some d => .ok (some d)
  | none =>
      if 400 ≤ resp.status ∨ errorsTruthy resp.body = true then
        .error (failMsg resp)
      else
        .ok none

/-- Process-wide credentials read once at startup (PROXMOX_HOST,
PROXMOX_PORT, PROXMOX_USER, PROXMOX_PASSWORD in src/index.ts lines
11-14), passed explicitly here instead of as module globals. -/
structure Config where
  host : String
  port : String
  user : String
  password : String

/-- The API base URL (src/index.ts line 24). -/
def apiBase (c : Config) : String :=
  "https://" ++ c.host ++ ":" ++ c.port ++ "/api2/json"

/-- HTTP methods accepted by `makeRequest` (src/index.ts line 242). -/
inductive Method where
  | get : Method
  | post : Method
  | put : Method
  | delete : Method
deriving DecidableEq, Repr

/-- An outgoing HTTP request as the source assembles it: method, URL,
the `Cookie` and `CSRFPreventionToken` headers (absent on the
unauthenticated ticket call), query parameters (axios `params`) and
request body (axios `data`). -/
structure HttpRequest where
  method : Method
  url : String
  cookie : Option String
  csrfToken : Option String
  params : Option Json
  body : Option Json
deriving Repr

/-- The remote control plane, modelled as a total oracle from requests
to responses (`validateStatus: () => true` means every status is
delivered as a response rather than a transport throw; transport-level
failures are outside this model). -/
def World : Type := HttpRequest → HttpResponse

/-- The ticket-acquisition request issued by `getTicket` (src/index.ts
lines 217-229): an unauthenticated POST of the credentials to
`/access/ticket`, with no cookie and no CSRF header. -/
def ticketRequest (c : Config) : HttpRequest where
  method := .post
  url := apiBase c ++ "/access/ticket"
  cookie := none
  csrfToken := none
  params := none
  body := some (Json.obj [("username", Json.str c.user), ("password", Json.str c.password)])

/-- Error message produced by `getTicket` when the acquisition response
has no truthy `data` field: the inner throw `"Failed to get
authentication ticket"` is wrapped by the surrounding catch into
`"Authentication failed: <message>"` (src/index.ts lines 234-236). -/
def authFailMsg : String :=
  "Authentication failed: Failed to get authentication ticket"

/-- The helper `getTicket` (src/index.ts lines 215-238), returning the
outcome together with the list of HTTP requests it issued.  The source
checks `if (response.data?.data)` — a truthiness test — and otherwise
throws, with the catch rewrapping the message. -/
def getTicket (c : Config) (w : World) : Except String Json × List HttpRequest :=
  match jsGet (w (ticketRequest c)).body "data" with
  | some d => if truthy d then (.ok d, [ticketRequest c]) else (.error authFailMsg, [ticketRequest c])
  | none => (.error authFailMsg, [ticketRequest c])

/-- Template-literal interpolation of a possibly-undefined value:
JavaScript renders `undefined` as the string `"undefined"`. -/
def interpolate : Option Json → String
  | none => "undefined"
  | some v => jsToString v

/-- The authenticated request assembled by `makeRequest` (src/index.ts
lines 248-267): the ticket is attached as the `PVEAuthCookie` cookie
and the CSRF token as the `CSRFPreventionToken` header; a DELETE
payload goes as query parameters, any other method's payload as the
request body. -/
def buildAuthRequest (c : Config) (m : Method) (endpoint : String)
    (payload : Option Json) (t : Json) : HttpRequest where
  method := m
  url := apiBase c ++ endpoint
  cookie := some ("PVEAuthCookie=" ++ interpolate (jsGet t "ticket"))
  csrfToken := some (interpolate (jsGet t "CSRFPreventionToken"))
  params := if m = .delete then payload else none
  body := if m = .delete then none else payload

/-- The helper `makeRequest` (src/index.ts lines 241-293): acquire a
fresh ticket, and if that succeeds issue the authenticated request and
resolve its response with `handleResponse`.  Returns the outcome
together with the list of HTTP requests issued, in order.  (The
transport-failure catch of lines 268-276 is unreachable in this model
because the `World` oracle is total.) -/
def makeRequest (c : Config) (w : World) (m : Method) (endpoint : String)
    (payload : Option Json) : Except String (Option Json) × List HttpRequest :=
  match getTicket c w with
  | (.error e, reqs) => (.error e, reqs)
  | (.ok t, reqs) =>
      (handleResponse (w (buildAuthRequest c m endpoint payload t)),
       reqs ++ [buildAuthRequest c m endpoint payload t])

/-- One content block of an MCP tool result (`{ type: "text", text }`);
`text` is `none` when the source assigns JavaScript `undefined` to it
(as `JSON.stringify(undefined, null, 2)` does). -/
structure ToolContent where
  type : String
  text : Option String
deriving Repr

/-- An MCP tool-handler result: content blocks plus the `isError` flag
(absent on success results in the source, which is falsy and modelled
as `false`). -/
structure ToolResult where
  content : List ToolContent
  isError : Bool
deriving Repr

/-- Quote and escape a string as `JSON.stringify` renders it (the
common escapes; other control characters pass through verbatim in this
model). -/
def quoteJson (s : String) : String :=
  "\"" ++ String.join (s.toList.map fun ch =>
    if ch = '"' then "\\\""
    else if ch = '\\' then "\\\\"
    else if ch = '\n' then "\\n"
    else if ch = '\r' then "\\r"
    else if ch = '\t' then "\\t"
    else String.mk [ch]) ++ "\""

/-- Indentation of `2 * n` spaces used by `JSON.stringify(v, null, 2)`. -/
def indentAt (n : Nat) : String :=
  String.mk (List.replicate (2 * n) ' ')

mutual

/-- Value serialization of `JSON.stringify(v, null, 2)` at nesting
depth `d`. -/
def stringifyAt (d : Nat) : Json → String
  | .null => "null"
  | .bool b => if b then "true" else "false"
  | .num n => toString n
  | .str s => quoteJson s
  | .arr [] => "[]"
  | .arr (x :: xs) =>
      "[\n" ++ String.intercalate ",\n" (stringifyElems (d + 1) (x :: xs))
        ++ "\n" ++ indentAt d ++ "]"
  | .obj [] => "\x7b\x7d"
  | .obj (f :: fs) =>
      "\x7b\n" ++ String.intercalate ",\n" (stringifyFields (d + 1) (f :: fs))
        ++ "\n" ++ indentAt d ++ "\x7d"

/-- Array elements, each on its own indented line. -/
def stringifyElems (d : Nat) : List Json → List String
  | [] => []
  | x :: xs => (indentAt d ++ stringifyAt d x) :: stringifyElems d xs

/-- Object fields, each on its own indented line as `"key": value`. -/
def stringifyFields (d : Nat) : List (String × Json) → List String
  | [] => []
  | (k, v) :: fs => (indentAt d ++ quoteJson k ++ ": " ++ stringifyAt d v) :: stringifyFields d fs

end

/-- The serialization `JSON.stringify(v, null, 2)` of a
possibly-undefined value: `JSON.stringify(undefined, null, 2)` is
JavaScript `undefined` (`none`), never a string. -/
def stringifyU : Option Json → Option String
  | none => none
  | some v => some (stringifyAt 0 v)

/-- A successful tool result wrapping a serialized value (the source
omits `isError`, which reads back as falsy). -/
def okResult (t : Option String) : ToolResult where
  content := [⟨"text", t⟩]
  isError := false

/-- The uniform catch block of every tool handler: the caught message
prefixed with `"Error <doing X>: "`, flagged `isError: true`. -/
def errResult (label : String) (msg : String) : ToolResult where
  content := [⟨"text", some (label ++ msg)⟩]
  isError := true

/-- JavaScript member access `v.f` on a possibly-undefined value:
accessing a property of `undefined` or `null` throws a TypeError
(message modelled without the engine-specific quoting). -/
def jsMember (v : Option Json) (f : String) : Except String (Option Json) :=
  match v with
  | none => .error ("Cannot read properties of undefined (reading " ++ f ++ ")")
  | some .null => .error ("Cannot read properties of null (reading " ++ f ++ ")")
  | some x => .ok (jsGet x f)

/-- The `get_node_status` tool handler (src/index.ts lines 306-329) as
a function of the outcome of its `makeRequest` call: on success it
serializes the unwrapped value directly; any failure is caught and
rendered as `"Error getting node status: <message>"` with
`isError: true`. -/
def get_node_status (core : Except String (Option Json)) : ToolResult :=
  match core with
  | .ok v => okResult (stringifyU v)
  | .error msg => errResult "Error getting node status: " msg

/-- The `delete_vm` tool handler (src/index.ts lines 740-765) as a
function of the VM id and the outcome of its `makeRequest` call (a
DELETE of `/nodes/<node>/qemu/<vmid>`): success ignores the returned
value and reports a fixed success object; any failure is caught and
rendered as `"Error deleting VM: <message>"` with `isError: true`. -/
def delete_vm (vmid : Int) (core : Except String (Option Json)) : ToolResult :=
  match core with
  | .ok _ =>
      okResult (stringifyU (some (Json.obj
        [("success", Json.bool true),
         ("message", Json.str ("VM " ++ toString vmid ++ " deleted successfully"))])))
  | .error msg => errResult "Error deleting VM: " msg

/-- The `vm_console` tool handler (src/index.ts lines 820-843) as a
function of the outcome of its `makeRequest` call (a POST of
`/nodes/<node>/qemu/<vmid>/console`): on success it reads `.data` of
the value `makeRequest` already unwrapped and serializes that; any
failure is caught and rendered as `"Error accessing console:
<message>"` with `isError: true`. -/
def vm_console (core : Except String (Option Json)) : ToolResult :=
  match core >>= fun v => jsMember v "data" with
  | .ok dv => okResult (stringifyU dv)
  | .error msg => errResult "Error accessing console: " msg

/-- The `get_updates` tool handler (src/index.ts lines 887-911) as a
function of the outcome of its `makeRequest` call (a GET of the apt
update endpoint): on success it reads `.data` of the value
`makeRequest` already unwrapped and serializes that; any failure is
caught and rendered as `"Error getting updates: <message>"` with
`isError: true`. -/
def get_updates (core : Except String (Option Json)) : ToolResult :=
  match core >>= fun v => jsMember v "data" with
  | .ok dv => okResult (stringifyU dv)
  | .error msg => errResult "Error getting updates: " msg

/-- JavaScript `||` coalescing as in `result.data || []` (src/index.ts
line 1641): a falsy or undefined left operand yields the empty array
literal, any truthy value passes through unchanged. -/
def jsOrElseArr : Option Json → Json
  | none => Json.arr []
  | some x => if truthy x then x else Json.arr []

/-- Filtering a list with a JavaScript callback that may throw:
elements are tested in order and the first throw aborts the whole
`filter` call. -/
def filterExcept (p : Json → Except String Bool) : List Json → Except String (List Json)
  | [] => .ok []
  | x :: xs =>
      match p x with
      | .error e => .error e
      | .ok b =>
          match filterExcept p xs with
          | .error e => .error e
          | .ok rest => .ok (if b then x :: rest else rest)

/-- JavaScript `Array.prototype.filter` on an arbitrary value: calling
`.filter` on anything but an array throws a TypeError (message
modelled without the engine-specific prefix). -/
def jsFilter (v : Json) (p : Json → Except String Bool) : Except String (List Json) :=
  match v with
  | .arr xs => filterExcept p xs
  | _ => .error "filter is not a function"

/-- The first `list_templates` filter callback
`item => item.template === 1` (src/index.ts line 1641): the property
access throws on a `null` element, and the strict comparison is true
only for the number 1. -/
def templateEq1 (x : Json) : Except String Bool :=
  match jsMember (some x) "template" with
  | .error e => .error e
  | .ok (some (Json.num n)) => .ok (n == 1)
  | .ok _ => .ok false

/-- The callback fragment `item.name.endsWith(suffix)` (src/index.ts
lines 1643-1646): throws when `item.name` is `undefined` or `null`,
or when it is not a string so that `.endsWith` is not a function. -/
def nameEndsWith (suffix : String) (x : Json) : Except String Bool :=
  match jsMember (some x) "name" with
  | .error e => .error e
  | .ok (some (Json.str s)) => .ok (s.endsWith suffix)
  | .ok none => .error "Cannot read properties of undefined (reading endsWith)"
  | .ok (some Json.null) => .error "Cannot read properties of null (reading endsWith)"
  | .ok (some _) => .error "item.name.endsWith is not a function"

/-- The second `list_templates` filter callback
`item => item.format === fmt || item.name.endsWith(suffix)`: the
short-circuiting `||` evaluates the `endsWith` call only when the
strict string comparison is false. -/
def formatOrNameEnds (fmt suffix : String) (x : Json) : Except String Bool :=
  match jsMember (some x) "format" with
  | .error e => .error e
  | .ok (some (Json.str fs)) => if fs = fmt then .ok true else nameEndsWith suffix x
  | .ok _ => nameEndsWith suffix x

/-- The optional template-type argument of `list_templates`
(`z.enum(["vm", "lxc"]).optional()`). -/
inductive TemplateType where
  | vm : TemplateType
  | lxc : TemplateType
deriving DecidableEq, Repr

/-- The `list_templates` tool handler (src/index.ts lines 1621-1667)
as a function of its optional `type` argument and the outcome of its
`makeRequest` call: it reads `.data` of the value `makeRequest`
already unwrapped, coalesces a falsy or missing value to the empty
array with `|| []`, keeps the entries whose `template` property is the
number 1, optionally filters by vm/lxc format, and serializes the
resulting array; any failure — including a TypeError thrown by the
property accesses — is caught and rendered as
"Error listing templates: <message>" with `isError: true`. -/
def list_templates (ty : Option TemplateType) (core : Except String (Option Json)) : ToolResult :=
  match (do
      let v ← core
      let dataV ← jsMember v "data"
      let t1 ← jsFilter (jsOrElseArr dataV) templateEq1
      match ty with
      | some .vm => filterExcept (formatOrNameEnds "vmdk" ".vmdk") t1
      | some .lxc => filterExcept (formatOrNameEnds "vztmpl" ".vztmpl") t1
      | none => pure t1 : Except String (List Json)) with
  | .ok ts => okResult (some (stringifyAt 0 (Json.arr ts)))
  | .error msg => errResult "Error listing templates: " msg

/-- Indexed rendering of a list of error strings as `Object.entries`
enumerates an array from index `i`: entry `i` renders as `"<i>: <s>"`. -/
def renderListFrom (i : Nat) : List String → List String
  | [] => []
  | s :: ss => (toString i ++ ": " ++ s) :: renderListFrom (i + 1) ss

/-- Rendering of a string-to-string mapping as `"key: value"` pairs. -/
def renderPairs (m : List (String × String)) : List String :=
  m.map fun kv => kv.1 ++ ": " ++ kv.2

/-! Helper lemmas about `handleResponse` and the error rendering. -/

/-- When the body has no `data` property but a truthy `errors` property,
the error branch fires with the consolidated rendering. -/
theorem handleResponse_error_of_truthy (resp : HttpResponse) (e : Json)
    (hd : jsGet resp.body "data" = none)
    (he : jsGet resp.body "errors" = some e)
    (ht : truthy e = true) :
    handleResponse resp = .error (renderErrors e) := by
  simp [handleResponse, hd, errorsTruthy, he, ht, failMsg]

/-- When the status is at least 400 and the body has no `data`
property, the error branch fires with `failMsg`. -/
theorem handleResponse_error_of_status (resp : HttpResponse)
    (hstatus : 400 ≤ resp.status) (hd : jsGet resp.body "data" = none) :
    handleResponse resp = .error (failMsg resp) := by
  simp [handleResponse, hd, hstatus]

/-- Any message `handleResponse` fails with is `failMsg` of the response. -/
theorem handleResponse_error_msg_eq (resp : HttpResponse) (msg : String)
    (h : handleResponse resp = .error msg) : msg = failMsg resp := by
  unfold handleResponse at h
  split at h
  · exact absurd h (by simp)
  · split at h
    · exact (Except.error.inj h).symm
    · exact absurd h (by simp)

/-- With a truthy `errors` property, `failMsg` is the consolidated
rendering of that property. -/
theorem failMsg_of_truthy (resp : HttpResponse) (e : Json)
    (he : jsGet resp.body "errors" = some e) (ht : truthy e = true) :
    failMsg resp = renderErrors e := by
  simp [failMsg, he, ht]

/-- Enumerating an array of strings from index `i` and rendering each
entry yields the indexed rendering. -/
theorem enumFrom_map_str (i : Nat) (xs : List String) :
    (enumFrom i (xs.map Json.str)).map (fun kv => kv.1 ++ ": " ++ jsToString kv.2)
      = renderListFrom i xs := by
  induction xs generalizing i with
  | nil => rfl
  | cons s ss ih => simp [enumFrom, renderListFrom, jsToString, ih]

/-- The consolidated rendering of an array-of-strings `errors` value is
the `"index: value"` entries joined with `"; "`. -/
theorem renderErrors_arr_str (xs : List String) :
    renderErrors (Json.arr (xs.map Json.str))
      = String.intercalate "; " (renderListFrom 0 xs) := by
  simp [renderErrors, entries, enumFrom_map_str]

/-- The consolidated rendering of a string-to-string mapping `errors`
value is the `"key: value"` entries joined with `"; "`. -/
theorem renderErrors_obj_str (m : List (String × String)) :
    renderErrors (Json.obj (m.map fun kv => (kv.1, Json.str kv.2)))
      = String.intercalate "; " (renderPairs m) := by
  simp only [renderErrors, entries, renderPairs, List.map_map]
  congr 1

/-! Claim theorems. -/

/-- C1 counterexample: the claim that every response with status at
least 400 resolves to a failure even when the body carries a `data`
field is false — for status 500 and body with a `data` field,
`makeRequest` response resolution returns that value as a success and
throws nothing. -/
theorem handleResponse_status_ge400_success_cex :
    400 ≤ 500 ∧
    handleResponse ⟨500, Json.obj [("data", Json.num 7)]⟩ = .ok (some (Json.num 7)) ∧
    ¬ ∃ m, handleResponse ⟨500, Json.obj [("data", Json.num 7)]⟩ = .error m := by
  refine ⟨by decide, rfl, ?_⟩
  rintro ⟨m, hm⟩
  exact Except.noConfusion ((rfl : handleResponse ⟨500, Json.obj [("data", Json.num 7)]⟩
    = .ok (some (Json.num 7))).symm.trans hm)

/-- C1 (amended): for every response with status at least 400, if the
body exposes no `data` field then `makeRequest` response resolution
fails (throws), and if the body exposes a `data` field then it returns
that value as a success even at such a status — the `data` check takes
precedence over the status check, and exactly one of the two outcomes
occurs. -/
theorem handleResponse_failure_iff_no_data (resp : HttpResponse)
    (hstatus : 400 ≤ resp.status) :
    (jsGet resp.body "data" = none → handleResponse resp = .error (failMsg resp)) ∧
    (∀ d, jsGet resp.body "data" = some d → handleResponse resp = .ok (some d)) := by
  constructor
  · intro hd
    simp [handleResponse, hd, hstatus]
  · intro d hd
    simp [handleResponse, hd]

/-- Witness for C1 (amended) at status 404 with an empty object body. -/
theorem handleResponse_failure_iff_no_data_witness :
    handleResponse ⟨404, Json.obj []⟩ = .error (failMsg ⟨404, Json.obj []⟩) :=
  (handleResponse_failure_iff_no_data ⟨404, Json.obj []⟩ (by decide)).1 rfl

/-- C2: a body exposing `data` with status 200 round-trips its value
unchanged, and a body exposing neither `data` nor `errors` at a status
below 400 resolves to success with no value (`undefined`). -/
theorem handleResponse_success_roundtrip (X : Json) (resp : HttpResponse) :
    handleResponse ⟨200, Json.obj [("data", X)]⟩ = .ok (some X) ∧
    (resp.status < 400 → jsGet resp.body "data" = none →
      jsGet resp.body "errors" = none → handleResponse resp = .ok none) := by
  refine ⟨rfl, fun hs hd he => ?_⟩
  have ht : errorsTruthy resp.body = false := by simp [errorsTruthy, he]
  simp [handleResponse, hd, ht, Nat.not_le.mpr hs]

/-- Witness for C2 at `data` holding the string "ok" and at a 204
response with an empty object body. -/
theorem handleResponse_success_roundtrip_witness :
    handleResponse ⟨200, Json.obj [("data", Json.str "ok")]⟩ = .ok (some (Json.str "ok")) ∧
    handleResponse ⟨204, Json.obj []⟩ = .ok none :=
  ⟨(handleResponse_success_roundtrip (Json.str "ok") ⟨204, Json.obj []⟩).1,
   (handleResponse_success_roundtrip (Json.str "ok") ⟨204, Json.obj []⟩).2 (by decide) rfl rfl⟩

/-- C3 counterexample: for status 500 and body carrying the error list
with the single entry "storage not found", the produced message is
"0: storage not found" — `Object.entries` on an array enumerates index
keys — and not the claimed "storage not found". -/
theorem handleResponse_list_errors_cex :
    handleResponse ⟨500, Json.obj [("errors", Json.arr [Json.str "storage not found"])]⟩
      = .error "0: storage not found" ∧
    handleResponse ⟨500, Json.obj [("errors", Json.arr [Json.str "storage not found"])]⟩
      ≠ .error "storage not found" := by
  refine ⟨rfl, fun h => ?_⟩
  have h2 : ("0: storage not found" : String) = "storage not found" :=
    Except.error.inj ((rfl : handleResponse
      ⟨500, Json.obj [("errors", Json.arr [Json.str "storage not found"])]⟩
      = .error "0: storage not found").symm.trans h)
  exact absurd h2 (by decide)

/-- C3 (amended): for every response with status at least 400 whose
body carries an `errors` field that is a list of strings, the entries
are rendered as "index: value" pairs (indices from 0) joined by "; " —
if the body exposes no `data` field this message is thrown, and any
message thrown for such a response is exactly this rendering; in
particular the single-entry list ["storage not found"] produces
"0: storage not found". -/
theorem handleResponse_list_errors_indexed (resp : HttpResponse) (xs : List String)
    (hstatus : 400 ≤ resp.status)
    (he : jsGet resp.body "errors" = some (Json.arr (xs.map Json.str))) :
    (jsGet resp.body "data" = none →
      handleResponse resp = .error (String.intercalate "; " (renderListFrom 0 xs))) ∧
    (∀ msg, handleResponse resp = .error msg →
      msg = String.intercalate "; " (renderListFrom 0 xs)) := by
  have hfail : failMsg resp = String.intercalate "; " (renderListFrom 0 xs) :=
    (failMsg_of_truthy resp _ he rfl).trans (renderErrors_arr_str xs)
  constructor
  · intro hd
    rw [← hfail]
    exact handleResponse_error_of_status resp hstatus hd
  · intro msg hmsg
    exact (handleResponse_error_msg_eq resp msg hmsg).trans hfail

/-- Witness for C3 (amended) at the single-entry list body of the
claim, at status 500. -/
theorem handleResponse_list_errors_indexed_witness :
    handleResponse ⟨500, Json.obj [("errors", Json.arr [Json.str "storage not found"])]⟩
      = .error (String.intercalate "; " (renderListFrom 0 ["storage not found"])) :=
  (handleResponse_list_errors_indexed
    ⟨500, Json.obj [("errors", Json.arr [Json.str "storage not found"])]⟩
    ["storage not found"] (by decide) rfl).1 rfl

/-- C4: for every response with status at least 400 whose body carries
an `errors` field that is a string-to-string mapping, the entries are
rendered as "key: value" pairs joined by "; " — if the body exposes no
`data` field this message is thrown, and any message thrown for such a
response is exactly this rendering; in particular the mapping with the
single entry vmid -> "already exists" produces "vmid: already exists". -/
theorem handleResponse_map_errors_joined (resp : HttpResponse) (m : List (String × String))
    (hstatus : 400 ≤ resp.status)
    (he : jsGet resp.body "errors" = some (Json.obj (m.map fun kv => (kv.1, Json.str kv.2)))) :
    (jsGet resp.body "data" = none →
      handleResponse resp = .error (String.intercalate "; " (renderPairs m))) ∧
    (∀ msg, handleResponse resp = .error msg →
      msg = String.intercalate "; " (renderPairs m)) := by
  have hfail : failMsg resp = String.intercalate "; " (renderPairs m) :=
    (failMsg_of_truthy resp _ he rfl).trans (renderErrors_obj_str m)
  constructor
  · intro hd
    rw [← hfail]
    exact handleResponse_error_of_status resp hstatus hd
  · intro msg hmsg
    exact (handleResponse_error_msg_eq resp msg hmsg).trans hfail

/-- Witness for C4 at the single-entry mapping body of the claim, at
status 422: the message is "vmid: already exists". -/
theorem handleResponse_map_errors_joined_witness :
    handleResponse ⟨422, Json.obj [("errors", Json.obj [("vmid", Json.str "already exists")])]⟩
      = .error (String.intercalate "; " (renderPairs [("vmid", "already exists")])) :=
  (handleResponse_map_errors_joined
    ⟨422, Json.obj [("errors", Json.obj [("vmid", Json.str "already exists")])]⟩
    [("vmid", "already exists")] (by decide) rfl).1 rfl

/-- C9: for every response with status at least 400 whose body carries
neither a `data` nor an `errors` field, the thrown message is
"Request failed with status <code>" for the response's status code. -/
theorem handleResponse_status_fallback_message (resp : HttpResponse)
    (hstatus : 400 ≤ resp.status)
    (hd : jsGet resp.body "data" = none)
    (he : jsGet resp.body "errors" = none) :
    handleResponse resp = .error ("Request failed with status " ++ toString resp.status) := by
  have hfail : failMsg resp = "Request failed with status " ++ toString resp.status := by
    simp [failMsg, he]
  rw [← hfail]
  exact handleResponse_error_of_status resp hstatus hd

/-- Witness for C9 at status 400 with an empty object body: the
message is "Request failed with status 400". -/
theorem handleResponse_status_fallback_message_witness :
    handleResponse ⟨400, Json.obj []⟩ = .error "Request failed with status 400" :=
  handleResponse_status_fallback_message ⟨400, Json.obj []⟩ (by decide) rfl rfl

/-! Helper lemmas about `getTicket` and the request trace of
`makeRequest`. -/

/-- Inversion: a successful `getTicket` returns exactly the `data`
value of the acquisition response, which is truthy. -/
theorem getTicket_ok_inv (c : Config) (w : World) (t : Json)
    (hok : (getTicket c w).1 = .ok t) :
    jsGet (w (ticketRequest c)).body "data" = some t ∧ truthy t = true := by
  unfold getTicket at hok
  cases hd : jsGet (w (ticketRequest c)).body "data" with
  | none =>
      rw [hd] at hok
      simp at hok
  | some d =>
      rw [hd] at hok
      by_cases ht : truthy d = true
      · simp [ht] at hok
        exact ⟨by rw [hok], hok ▸ ht⟩
      · simp [ht] at hok

/-- Every invocation of `getTicket` issues exactly the one
ticket-acquisition request. -/
theorem getTicket_trace (c : Config) (w : World) :
    (getTicket c w).2 = [ticketRequest c] := by
  unfold getTicket
  split
  · split <;> rfl
  · rfl

/-- A successful `getTicket` as a pair. -/
theorem getTicket_pair_of_ok (c : Config) (w : World) (t : Json)
    (hok : (getTicket c w).1 = .ok t) :
    getTicket c w = (.ok t, [ticketRequest c]) := by
  cases hgt : getTicket c w with
  | mk fst snd =>
      have h1 : fst = Except.ok t := by rw [hgt] at hok; exact hok
      have h2 : snd = [ticketRequest c] := by
        have h := getTicket_trace c w
        rw [hgt] at h
        exact h
      rw [h1, h2]

/-- After a successful acquisition, `makeRequest` issues exactly the
acquisition request followed by the authenticated request, and
resolves the latter's response. -/
theorem makeRequest_eq_of_ok (c : Config) (w : World) (m : Method) (ep : String)
    (payload : Option Json) (t : Json) (hok : (getTicket c w).1 = .ok t) :
    makeRequest c w m ep payload
      = (handleResponse (w (buildAuthRequest c m ep payload t)),
         [ticketRequest c, buildAuthRequest c m ep payload t]) := by
  rw [makeRequest, getTicket_pair_of_ok c w t hok]
  rfl

/-- C5: every invocation of `makeRequest` first acquires a fresh ticket
via `getTicket` — the first request of its trace is the ticket
acquisition, which itself carries no cookie and no CSRF header — and,
when acquisition succeeds with ticket `t` extracted from exactly that
acquisition's response, the one further request it issues carries
`PVEAuthCookie=<t.ticket>` as its cookie and `t.CSRFPreventionToken`
as its CSRF header. -/
theorem makeRequest_fresh_ticket_attached (c : Config) (w : World) (m : Method)
    (ep : String) (payload : Option Json) (t : Json)
    (hok : (getTicket c w).1 = .ok t) :
    jsGet (w (ticketRequest c)).body "data" = some t ∧
    (makeRequest c w m ep payload).2 = [ticketRequest c, buildAuthRequest c m ep payload t] ∧
    (buildAuthRequest c m ep payload t).cookie
      = some ("PVEAuthCookie=" ++ interpolate (jsGet t "ticket")) ∧
    (buildAuthRequest c m ep payload t).csrfToken
      = some (interpolate (jsGet t "CSRFPreventionToken")) ∧
    (ticketRequest c).cookie = none ∧ (ticketRequest c).csrfToken = none := by
  refine ⟨(getTicket_ok_inv c w t hok).1, ?_, rfl, rfl, rfl, rfl⟩
  rw [makeRequest_eq_of_ok c w m ep payload t hok]

/-- Witness for C5 at a concrete configuration and a remote that
answers every request with a fixed ticket payload. -/
theorem makeRequest_fresh_ticket_attached_witness :
    (makeRequest ⟨"pve.example", "8006", "root@pam", "secret"⟩
        (fun _ => ⟨200, Json.obj [("data", Json.obj
          [("ticket", Json.str "TICKET"), ("CSRFPreventionToken", Json.str "CSRF")])]⟩)
        Method.get "/nodes" none).2
      = [ticketRequest ⟨"pve.example", "8006", "root@pam", "secret"⟩,
         buildAuthRequest ⟨"pve.example", "8006", "root@pam", "secret"⟩ Method.get "/nodes" none
           (Json.obj [("ticket", Json.str "TICKET"), ("CSRFPreventionToken", Json.str "CSRF")])] ∧
    (buildAuthRequest ⟨"pve.example", "8006", "root@pam", "secret"⟩ Method.get "/nodes" none
        (Json.obj [("ticket", Json.str "TICKET"), ("CSRFPreventionToken", Json.str "CSRF")])).cookie
      = some "PVEAuthCookie=TICKET" :=
  ⟨(makeRequest_fresh_ticket_attached ⟨"pve.example", "8006", "root@pam", "secret"⟩
      (fun _ => ⟨200, Json.obj [("data", Json.obj
        [("ticket", Json.str "TICKET"), ("CSRFPreventionToken", Json.str "CSRF")])]⟩)
      Method.get "/nodes" none
      (Json.obj [("ticket", Json.str "TICKET"), ("CSRFPreventionToken", Json.str "CSRF")])
      rfl).2.1,
   rfl⟩

/-- C6: when the ticket-acquisition response body has no `data` field,
`getTicket` fails with the authentication-failure message and
`makeRequest` fails with that same message after issuing only the one
acquisition request — the authenticated request is never issued. -/
theorem makeRequest_auth_failure_short_circuit (c : Config) (w : World) (m : Method)
    (ep : String) (payload : Option Json)
    (hd : jsGet (w (ticketRequest c)).body "data" = none) :
    (getTicket c w).1 = .error authFailMsg ∧
    makeRequest c w m ep payload = (.error authFailMsg, [ticketRequest c]) := by
  have h1 : getTicket c w = (.error authFailMsg, [ticketRequest c]) := by
    unfold getTicket
    rw [hd]
  exact ⟨by rw [h1], by rw [makeRequest, h1]⟩

/-- Witness for C6 at a remote that answers every request with an
empty object body. -/
theorem makeRequest_auth_failure_short_circuit_witness :
    makeRequest ⟨"pve.example", "8006", "root@pam", "secret"⟩
        (fun _ => ⟨200, Json.obj []⟩) Method.get "/nodes" none
      = (.error authFailMsg, [ticketRequest ⟨"pve.example", "8006", "root@pam", "secret"⟩]) :=
  (makeRequest_auth_failure_short_circuit ⟨"pve.example", "8006", "root@pam", "secret"⟩
    (fun _ => ⟨200, Json.obj []⟩) Method.get "/nodes" none rfl).2

/-- C7: after a successful acquisition, the one authenticated request
`makeRequest` issues serializes a DELETE payload as query parameters
and not as a body, and a POST or PUT payload as the body and not as
query parameters. -/
theorem makeRequest_delete_params_post_body (c : Config) (w : World)
    (ep : String) (payload : Option Json) (t : Json) (m : Method)
    (hok : (getTicket c w).1 = .ok t) :
    (makeRequest c w m ep payload).2 = [ticketRequest c, buildAuthRequest c m ep payload t] ∧
    (m = .delete → (buildAuthRequest c m ep payload t).params = payload ∧
      (buildAuthRequest c m ep payload t).body = none) ∧
    (m = .post ∨ m = .put → (buildAuthRequest c m ep payload t).body = payload ∧
      (buildAuthRequest c m ep payload t).params = none) := by
  refine ⟨by rw [makeRequest_eq_of_ok c w m ep payload t hok], ?_, ?_⟩
  · rintro rfl
    exact ⟨rfl, rfl⟩
  · rintro (rfl | rfl) <;> exact ⟨rfl, rfl⟩

/-- Witness for C7 at a concrete DELETE call with a `force` payload. -/
theorem makeRequest_delete_params_post_body_witness :
    (buildAuthRequest ⟨"pve.example", "8006", "root@pam", "secret"⟩ Method.delete
        "/nodes/pve/qemu/100" (some (Json.obj [("force", Json.str "1")]))
        (Json.obj [("ticket", Json.str "TICKET"), ("CSRFPreventionToken", Json.str "CSRF")])).params
      = some (Json.obj [("force", Json.str "1")]) ∧
    (buildAuthRequest ⟨"pve.example", "8006", "root@pam", "secret"⟩ Method.delete
        "/nodes/pve/qemu/100" (some (Json.obj [("force", Json.str "1")]))
        (Json.obj [("ticket", Json.str "TICKET"), ("CSRFPreventionToken", Json.str "CSRF")])).body
      = none :=
  (makeRequest_delete_params_post_body ⟨"pve.example", "8006", "root@pam", "secret"⟩
    (fun _ => ⟨200, Json.obj [("data", Json.obj
      [("ticket", Json.str "TICKET"), ("CSRFPreventionToken", Json.str "CSRF")])]⟩)
    "/nodes/pve/qemu/100" (some (Json.obj [("force", Json.str "1")]))
    (Json.obj [("ticket", Json.str "TICKET"), ("CSRFPreventionToken", Json.str "CSRF")])
    Method.delete rfl).2.1 rfl

/-- C8: when the Session/Request Layer fails with any message, the
`get_node_status` and `delete_vm` tool handlers return a normal result
whose single content text is "Error <doing X>: <message>" and whose
`isError` flag is true — the exception is absorbed at the handler
boundary (the handlers are total functions into `ToolResult`). -/
theorem tool_handlers_catch_errors (msg : String) (vmid : Int) :
    get_node_status (.error msg)
      = ⟨[⟨"text", some ("Error getting node status: " ++ msg)⟩], true⟩ ∧
    (get_node_status (.error msg)).isError = true ∧
    delete_vm vmid (.error msg)
      = ⟨[⟨"text", some ("Error deleting VM: " ++ msg)⟩], true⟩ ∧
    (delete_vm vmid (.error msg)).isError = true :=
  ⟨rfl, rfl, rfl, rfl⟩

/-- C10 counterexample: the claim that every one of the listed tools
renders the serialization of `undefined` fails at `list_templates` —
for the unwrapped success payload `[]`, which has no `data` property
of its own, it coalesces the missing `.data` with `|| []` and renders
"[]", the serialization of the empty list, which is not the
serialization of `undefined`. -/
theorem list_templates_renders_empty_cex :
    jsGet (Json.arr []) "data" = none ∧
    list_templates none (.ok (some (Json.arr []))) = okResult (some "[]") ∧
    okResult (some "[]") ≠ okResult none := by
  refine ⟨rfl, rfl, ?_⟩
  simp [okResult]

/-- C10 (amended): the listed handlers read `.data` of the value
`makeRequest` already unwrapped (a successful response `{"data": X}`
unwraps to `X`).  For `X` with no `data` property of its own: when `X`
is not `null`, `vm_console` and `get_updates` render the serialization
of `undefined` — never the serialization of `X` — while
`list_templates` coalesces the missing `.data` to the empty list and
renders "[]"; when `X` is `null`, the repeated `.data` access throws
and all three handlers return a caught error result. -/
theorem handlers_read_data_after_unwrap (X : Json)
    (hX : jsGet X "data" = none) :
    handleResponse ⟨200, Json.obj [("data", X)]⟩ = .ok (some X) ∧
    (X ≠ Json.null →
      vm_console (.ok (some X)) = okResult none ∧
      get_updates (.ok (some X)) = okResult none ∧
      list_templates none (.ok (some X)) = okResult (some "[]")) ∧
    (X = Json.null →
      (vm_console (.ok (some X))).isError = true ∧
      (get_updates (.ok (some X))).isError = true ∧
      (list_templates none (.ok (some X))).isError = true) ∧
    okResult none ≠ okResult (stringifyU (some X)) := by
  refine ⟨rfl, fun hnull => ?_, fun hnull => ?_, ?_⟩
  · have hm : jsMember (some X) "data" = .ok none := by
      cases X <;> simp_all [jsMember]
    refine ⟨?_, ?_, ?_⟩
    · simp [vm_console, Bind.bind, Except.bind, hm, stringifyU]
    · simp [get_updates, Bind.bind, Except.bind, hm, stringifyU]
    · simp [list_templates, Bind.bind, Except.bind, hm, jsOrElseArr, jsFilter,
        filterExcept, pure, Except.pure, stringifyAt]
  · subst hnull
    exact ⟨rfl, rfl, rfl⟩
  · simp [okResult, stringifyU]

/-- Witness for C10 (amended) at the empty-array payload (no `data`
property of its own) and at the `null` payload. -/
theorem handlers_read_data_after_unwrap_witness :
    (vm_console (.ok (some (Json.arr []))) = okResult none ∧
     get_updates (.ok (some (Json.arr []))) = okResult none ∧
     list_templates none (.ok (some (Json.arr []))) = okResult (some "[]")) ∧
    (vm_console (.ok (some Json.null))).isError = true :=
  ⟨(handlers_read_data_after_unwrap (Json.arr []) rfl).2.1 (by simp),
   ((handlers_read_data_after_unwrap Json.null rfl).2.2.1 rfl).1⟩
